import Mathlib

/-!
Verification development for the YouTube media-resolution module
(`src/api/src/processing/services/youtube.js`).

The module is shallowly embedded below: JavaScript strings are Lean
`String`s manipulated through executable character-list helpers that
mirror the JS string methods used by the source (`split`, `trim`,
`replace` of a first occurrence, `startsWith`, `endsWith`, `includes`),
JS numbers arising from `Number(...)` coercions are `Option Int` with
`none` playing the role of `NaN`, nullable fields are `Option`s, and a
JS `TypeError` escaping the function is the dedicated result
constructor `MediaResult.thrown`.
-/

set_option maxRecDepth 4096

/-! ### JS string primitives -/

/-- Whitespace as trimmed by JS `String.prototype.trim` (restricted to the
ASCII whitespace that can occur in the strings handled here). -/
def jsWhitespace (c : Char) : Bool :=
  c = ' ' || c = '\n' || c = '\t' || c = '\r'

/-- Character-list version of JS `trim`: drop whitespace from both ends. -/
def jsTrimList (l : List Char) : List Char :=
  ((l.dropWhile jsWhitespace).reverse.dropWhile jsWhitespace).reverse

/-- JS `s.trim()`. -/
def jsTrim (s : String) : String :=
  String.mk (jsTrimList s.data)

/-- JS `s.startsWith(p)`. -/
def jsStartsWith (s p : String) : Bool :=
  p.data.isPrefixOf s.data

/-- JS `s.endsWith(p)`. -/
def jsEndsWith (s p : String) : Bool :=
  p.data.isSuffixOf s.data

/-- Pattern occurs as a contiguous sublist. -/
def listContainsSub (pat : List Char) : List Char → Bool
  | [] => pat.isEmpty
  | c :: rest => pat.isPrefixOf (c :: rest) || listContainsSub pat rest

/-- JS `s.includes(sub)`. -/
def jsIncludes (s sub : String) : Bool :=
  listContainsSub sub.data s.data

/-- Replace the first occurrence of `pat` in `l` by nothing, scanning left to
right, as JS `s.replace(pat, "")` does for string patterns. -/
def jsReplaceFirstList (pat : List Char) : List Char → List Char
  | [] => []
  | c :: rest =>
    if pat.isPrefixOf (c :: rest) then (c :: rest).drop pat.length
    else c :: jsReplaceFirstList pat rest

/-- JS `s.replace(pat, "")` for a string pattern: first occurrence only. -/
def jsReplaceFirst (s pat : String) : String :=
  String.mk (jsReplaceFirstList pat.data s.data)

/-- Split a character list on the two-character separator `"\n\n"`, exactly as
JS `s.split("\n\n")` does (non-overlapping occurrences, left to right). -/
def splitBlank : List Char → List (List Char)
  | [] => [[]]
  | '\n' :: '\n' :: rest => [] :: splitBlank rest
  | c :: rest =>
    match splitBlank rest with
    | [] => [[c]]
    | h :: t => (c :: h) :: t

/-- JS `s.split("\n\n")` returning `String`s. -/
def jsSplitBlank (s : String) : List String :=
  (splitBlank s.data).map String.mk

/-- Numeric value of a digit list (most significant first). -/
def digitsVal (l : List Char) : Nat :=
  l.foldl (fun a c => a * 10 + (c.toNat - 48)) 0

/-- JS `Number(s)` on the integer-like strings that occur in this module
(quality strings such as `"720"` or `"9000"`): `none` models `NaN`, the empty
(or all-whitespace) string coerces to `0`, optionally signed digit strings
coerce to their value, anything else is `NaN`. -/
def jsNumberStr (s : String) : Option Int :=
  let l := jsTrimList s.data
  if l.isEmpty then some 0
  else
    match l with
    | '-' :: rest =>
      if !rest.isEmpty && rest.all Char.isDigit then some (-(digitsVal rest : Int)) else none
    | _ => if l.all Char.isDigit then some (digitsVal l) else none

/-- JS `Number(x)` where `x` may be `undefined` (`none`), which yields `NaN`. -/
def jsNumberOpt : Option String → Option Int
  | none => none
  | some s => jsNumberStr s

/-- JS `>` on two numbers that may be `NaN`: any comparison with `NaN` is
false. -/
def jsGt : Option Int → Option Int → Bool
  | some a, some b => a > b
  | _, _ => false

/-! ### Stream variants (`StreamVariant` of the data model) -/

/-- The `audio_track` descriptor attached to dubbed/original audio variants. -/
structure AudioTrack where
  audio_is_default : Bool
deriving DecidableEq, Repr

/-- One encoded stream variant from `info.streaming_data.adaptive_formats`.
Nullable fields are `Option`s; `content_length` keeps JS truthiness (absent or
zero is falsy). -/
structure StreamVariant where
  mime_type : String
  bitrate : Int
  has_video : Bool
  has_audio : Bool
  content_length : Option Int
  quality_label : Option String
  width : Nat
  height : Nat
  language : Option String
  is_original : Bool
  audio_track : Option AudioTrack
  url : String
deriving DecidableEq, Repr

/-- JS truthiness of `content_length` (absent or `0` disqualifies). -/
def contentTruthy : Option Int → Bool
  | none => false
  | some n => n ≠ 0

/-- JS truthiness of an optional string (absent or empty is falsy). -/
def truthyOptStr : Option String → Bool
  | none => false
  | some s => s ≠ ""

/-! ### Codec families and filtering (youtube.js lines 12-28, 188-201) -/

/-- One entry of the `codecList` table. -/
structure CodecSpec where
  videoCodec : String
  audioCodec : String
  container : String
deriving DecidableEq, Repr

/-- The `codecList` table from youtube.js lines 12-28.  The final branch is
unreachable for the three supported families; indexing the JS object with an
unknown key would fail at the subsequent property access. -/
def codecList (fmt : String) : CodecSpec :=
  if fmt = "h264" then ⟨"avc1", "mp4a", "mp4"⟩
  else if fmt = "av1" then ⟨"av01", "opus", "webm"⟩
  else if fmt = "vp9" then ⟨"vp9", "opus", "webm"⟩
  else ⟨"", "", ""⟩

/-- Stable insertion of a variant into a bitrate-descending list: `a` is placed
before the first element whose bitrate is not larger, which matches the stable
order produced by JS `sort((a, b) => Number(b.bitrate) - Number(a.bitrate))`. -/
def insertByBitrate (a : StreamVariant) : List StreamVariant → List StreamVariant
  | [] => [a]
  | b :: bs => if b.bitrate ≤ a.bitrate then a :: b :: bs else b :: insertByBitrate a bs

/-- Stable sort by descending bitrate (insertion sort). -/
def sortByBitrate : List StreamVariant → List StreamVariant
  | [] => []
  | a :: rest => insertByBitrate a (sortByBitrate rest)

/-- `filterByCodec` from youtube.js lines 188-194: keep variants whose mime
type contains the family's video-codec or audio-codec tag, then sort by
descending bitrate. -/
def filterByCodec (fmt : String) (formats : List StreamVariant) : List StreamVariant :=
  sortByBitrate (formats.filter (fun e =>
    jsIncludes e.mime_type (codecList fmt).videoCodec
    || jsIncludes e.mime_type (codecList fmt).audioCodec))

/-- Lines 196-201: filter with the requested family; when that yields zero
variants and the family is vp9 or av1, retry once with h264.  Returns the
family actually used together with the filtered list used afterwards. -/
def resolveFormats (afs : List StreamVariant) (fmt : String) :
    String × List StreamVariant :=
  let fs := filterByCodec fmt afs
  if fs.length = 0 && (fmt = "vp9" || fmt = "av1") then
    ("h264", filterByCodec "h264" afs)
  else (fmt, fs)

/-! ### Audio selection (youtube.js lines 210-228) -/

/-- `checkBestAudio` from line 210: an audio-only track. -/
def checkBestAudio (i : StreamVariant) : Bool :=
  i.has_audio && !i.has_video

/-- The find condition of lines 216-218: audio-only, language strictly equal
to the requested dub language, carrying an `audio_track` descriptor. -/
def dubCond (lang : String) (i : StreamVariant) : Bool :=
  checkBestAudio i && i.language == some lang && i.audio_track.isSome

/-- Whether a variant's audio track is marked as the default track
(`dubbedAudio?.audio_track?.audio_is_default`, absent being falsy). -/
def trackIsDefault (i : StreamVariant) : Bool :=
  (i.audio_track.map AudioTrack.audio_is_default).getD false

/-- Lines 212-228: pick the first original audio-only track; when a (truthy)
dub language is requested, find the first audio-only track of that language
carrying audio-track metadata, and let it override the original exactly when
it is not the default track, setting `isDubbed`; finally fall back to any
audio-only track when nothing was picked.  Returns the chosen track and the
`isDubbed` flag. -/
def selectAudio (afs : List StreamVariant) (dubLang : Option String) :
    Option StreamVariant × Bool :=
  let audio0 := afs.find? (fun i => checkBestAudio i && i.is_original)
  let dubbedAudio : Option StreamVariant :=
    match dubLang with
    | none => none
    | some lang => if lang = "" then none else afs.find? (dubCond lang)
  let picked : Option StreamVariant × Bool :=
    match dubbedAudio with
    | some d => if !trackIsDefault d then (some d, true) else (audio0, false)
    | none => (audio0, false)
  match picked with
  | (none, flag) => (afs.find? checkBestAudio, flag)
  | (some a, flag) => (some a, flag)

/-! ### Video quality selection (youtube.js lines 266-280) -/

/-- `qual` from lines 266-272: `undefined` for a falsy `quality_label`,
otherwise the prefix of the label before the first `'p'` or `'s'`
(`label.split('p', 2)[0].split('s', 2)[0]`). -/
def qual (i : StreamVariant) : Option String :=
  match i.quality_label with
  | none => none
  | some l =>
    if l = "" then none
    else some (String.mk ((l.data.takeWhile (· ≠ 'p')).takeWhile (· ≠ 's')))

/-- Lines 274-280: map the requested quality `"max"` to `"9000"`, clamp the
request down to the best video's parsed quality when it numerically exceeds
it, and pick the first variant with that parsed quality that has video and no
audio. -/
def selectVideo (afs : List StreamVariant) (oquality : Option String)
    (bestVideo : Option StreamVariant) : Option StreamVariant :=
  let quality : Option String := if oquality = some "max" then some "9000" else oquality
  let bestQuality := bestVideo.bind qual
  let matchingQuality :=
    if jsGt (jsNumberOpt quality) (jsNumberOpt bestQuality) then bestQuality else quality
  afs.find? (fun i => qual i == matchingQuality && i.has_video && !i.has_audio)

/-! ### File metadata (youtube.js lines 230-245) -/

/-- The `basic_info` part of a fetched video info. -/
structure BasicInfo where
  id : String
  title : String
  author : String
  duration : Int
  is_live : Bool
  short_description : Option String
deriving DecidableEq, Repr

/-- The `fileMetadata` object. -/
structure FileMetadata where
  title : String
  artist : String
  album : Option String := none
  copyright : Option String := none
  date : Option String := none
deriving DecidableEq, Repr

/-- Lines 230-245: title and artist are trimmed and sanitized (the sanitizer
`cleanString` is the external parameter `clean`), with a first `"- Topic"`
occurrence removed from the author; when the description starts with
`"Provided to YouTube by"` and splitting it on blank lines with limit 5 yields
exactly 5 segments, segment 2 is the album, segment 3 the copyright, and
segment 4 — when it starts with `"Released on:"` — gives the date after
removing the first occurrence of `"Released on: "` and trimming. -/
def mkFileMetadata (clean : String → String) (bi : BasicInfo) : FileMetadata :=
  let base : FileMetadata :=
    { title := clean (jsTrim bi.title)
      artist := clean (jsTrim (jsReplaceFirst bi.author "- Topic")) }
  match bi.short_description with
  | none => base
  | some d =>
    if jsStartsWith d "Provided to YouTube by" then
      let descItems := (jsSplitBlank d).take 5
      if descItems.length = 5 then
        { base with
          album := descItems.get? 2
          copyright := descItems.get? 3
          date :=
            match descItems.get? 4 with
            | some s4 =>
              if jsStartsWith s4 "Released on:" then
                some (jsTrim (jsReplaceFirst s4 "Released on: "))
              else none
            | none => none }
      else base
    else base

/-! ### Playability and the full post-fetch pipeline (youtube.js 131-302) -/

/-- The optional `error_screen` with its (optionally chained) `reason.text`
and `subreason.text` fields collapsed into optional strings. -/
structure ErrorScreen where
  reasonText : Option String := none
  subreasonText : Option String := none
deriving DecidableEq, Repr

/-- `info.playability_status`.  `reason` is nullable: the LOGIN_REQUIRED
branch dereferences it without optional chaining. -/
structure Playability where
  status : String
  reason : Option String := none
  error_screen : Option ErrorScreen := none
deriving DecidableEq, Repr

/-- `info.streaming_data`. -/
structure StreamingData where
  adaptive_formats : List StreamVariant
deriving DecidableEq, Repr

/-- A fetched video info (the parts the pipeline reads). -/
structure Info where
  playability_status : Playability
  basic_info : BasicInfo
  streaming_data : StreamingData
deriving DecidableEq, Repr

/-- The request object `o` (the fields the post-fetch pipeline reads). -/
structure Options where
  id : String
  format : Option String := none
  isAudioOnly : Bool := false
  quality : Option String := none
  dubLang : Option String := none
deriving DecidableEq, Repr

/-- The `filenameAttributes` object (lines 247-253, extended at 283-286). -/
structure FilenameAttributes where
  service : String
  id : String
  title : String
  author : String
  youtubeDubName : Option String
  qualityLabel : Option String := none
  resolution : Option String := none
  extension : Option String := none
  youtubeFormat : Option String := none
deriving DecidableEq, Repr

/-- The outcome of the post-fetch pipeline: a typed error object, an
audio-only plan, a merged audio+video plan, or an uncaught JS exception
(`thrown`). -/
inductive MediaResult where
  | err (code : String) (critical : Bool)
  | audioPlan (url : String) (bestAudio : String)
      (fn : FilenameAttributes) (fm : FileMetadata)
  | merge (videoUrl audioUrl : String)
      (fn : FilenameAttributes) (fm : FileMetadata)
  | thrown
deriving DecidableEq, Repr

/-- Whether a result is a successful plan. -/
def MediaResult.isPlan : MediaResult → Bool
  | .audioPlan _ _ _ _ => true
  | .merge _ _ _ _ => true
  | _ => false

/-- `error_screen?.reason?.text`. -/
def screenReasonText (p : Playability) : Option String :=
  p.error_screen.bind ErrorScreen.reasonText

/-- `error_screen?.subreason?.text`. -/
def screenSubreasonText (p : Playability) : Option String :=
  p.error_screen.bind ErrorScreen.subreasonText

/-- The `switch (playability.status)` of lines 136-163.  In the
LOGIN_REQUIRED arm the source reads `playability.reason.endsWith(...)`
without optional chaining, so an absent reason raises a TypeError
(`MediaResult.thrown`); the UNPLAYABLE arm uses optional chaining
throughout. -/
def playabilitySwitch (p : Playability) : Option MediaResult :=
  if p.status = "LOGIN_REQUIRED" then
    match p.reason with
    | none => some .thrown
    | some r =>
      if jsEndsWith r "bot" then some (.err "youtube.login" false)
      else if jsEndsWith r "age" then some (.err "content.video.age" false)
      else if screenReasonText p = some "Private video" then
        some (.err "content.video.private" false)
      else none
  else if p.status = "UNPLAYABLE" then
    if (p.reason.map (fun r => jsEndsWith r "request limit.")).getD false then
      some (.err "fetch.rate" false)
    else if ((screenSubreasonText p).map
        (fun t => jsEndsWith t "in your country")).getD false then
      some (.err "content.video.region" false)
    else if screenReasonText p = some "Private video" then
      some (.err "content.video.private" false)
    else none
  else if p.status = "AGE_VERIFICATION_REQUIRED" then
    some (.err "content.video.age" false)
  else none

/-- Lines 136-184: the playability switch followed by the generic non-OK
check, the live check, the duration-limit check and the id-integrity check.
`none` means the pipeline proceeds to stream selection. -/
def gateAndChecks (durationLimit : Int) (o : Options) (info : Info) :
    Option MediaResult :=
  match playabilitySwitch info.playability_status with
  | some r => some r
  | none =>
    if info.playability_status.status ≠ "OK" then
      some (.err "content.video.unavailable" false)
    else if info.basic_info.is_live then
      some (.err "content.video.live" false)
    else if info.basic_info.duration > durationLimit then
      some (.err "content.too_long" false)
    else if info.basic_info.id ≠ o.id then
      some (.err "fetch.fail" true)
    else none

/-- Line 186: `o.format || "h264"` (absent or empty string is falsy). -/
def format0 (o : Options) : String :=
  match o.format with
  | none => "h264"
  | some f => if f = "" then "h264" else f

/-- The format family and filtered variant list actually used by the
selection stage (lines 186-201). -/
def resolvedPair (o : Options) (info : Info) : String × List StreamVariant :=
  resolveFormats info.streaming_data.adaptive_formats (format0 o)

/-- The codec family in effect after the fallback. -/
def theFormat (o : Options) (info : Info) : String :=
  (resolvedPair o info).1

/-- The filtered, bitrate-sorted variant list in effect after the fallback. -/
def theAfs (o : Options) (info : Info) : List StreamVariant :=
  (resolvedPair o info).2

/-- Line 203: the first filtered variant with video and truthy content
length. -/
def theBestVideo (o : Options) (info : Info) : Option StreamVariant :=
  (theAfs o info).find? (fun i => i.has_video && contentTruthy i.content_length)

/-- Line 204: the first filtered variant with audio and truthy content
length. -/
def theHasAudio (o : Options) (info : Info) : Option StreamVariant :=
  (theAfs o info).find? (fun i => i.has_audio && contentTruthy i.content_length)

/-- The audio pick and `isDubbed` flag of lines 210-228 on the filtered
list. -/
def theAudio (o : Options) (info : Info) : Option StreamVariant × Bool :=
  selectAudio (theAfs o info) o.dubLang

/-- The base `filenameAttributes` of lines 247-253. -/
def baseFn (o : Options) (info : Info) (fm : FileMetadata) : FilenameAttributes :=
  { service := "youtube"
    id := o.id
    title := fm.title
    author := fm.artist
    youtubeDubName := if (theAudio o info).2 then o.dubLang else none }

/-- The `filenameAttributes` of a merged plan: the base attributes extended
with the selected video's quality label, resolution, the container of the
resolved codec family, and the family itself (lines 283-286). -/
def mergeFn (o : Options) (info : Info) (fm : FileMetadata)
    (v : StreamVariant) : FilenameAttributes :=
  { baseFn o info fm with
    qualityLabel := v.quality_label
    resolution := some (toString v.width ++ "x" ++ toString v.height)
    extension := some (codecList (theFormat o info)).container
    youtubeFormat := some (theFormat o info) }

/-- Lines 186-302: stream selection and plan assembly, reached only when the
gate passed. -/
def buildPlan (clean : String → String) (o : Options) (info : Info) :
    MediaResult :=
  if ((theBestVideo o info).isNone && !o.isAudioOnly)
      || ((theHasAudio o info).isNone && o.isAudioOnly) then
    .err "fetch.empty" false
  else
    match (theAudio o info).1, o.isAudioOnly with
    | some a, true =>
      .audioPlan a.url (if theFormat o info = "h264" then "m4a" else "opus")
        (baseFn o info (mkFileMetadata clean info.basic_info))
        (mkFileMetadata clean info.basic_info)
    | _, _ =>
      match selectVideo (theAfs o info) o.quality (theBestVideo o info),
          (theAudio o info).1 with
      | some v, some a =>
        .merge v.url a.url
          (mergeFn o info (mkFileMetadata clean info.basic_info) v)
          (mkFileMetadata clean info.basic_info)
      | _, _ => .err "fetch.fail" false

/-- The whole post-fetch pipeline (lines 131-302): the gate either produces an
error (or uncaught exception), or the plan-building stage runs. -/
def resolveInfo (clean : String → String) (durationLimit : Int)
    (o : Options) (info : Info) : MediaResult :=
  match gateAndChecks durationLimit o info with
  | some r => r
  | none => buildPlan clean o info

/-! ### Credential bundles and the session lifecycle (youtube.js 8-99) -/

/-- A JS value stored in a credential bundle: either a string or some
non-string value carrying only its JS truthiness. -/
inductive JVal where
  | str : String → JVal
  | nonstr : Bool → JVal
deriving DecidableEq, Repr

/-- JS truthiness of a bundle value. -/
def JVal.truthy : JVal → Bool
  | .str s => s ≠ ""
  | .nonstr t => t

/-- Whether an optional bundle value is present and a string
(`typeof values[x] === 'string'`). -/
def isStrVal : Option JVal → Bool
  | some (.str _) => true
  | _ => false

/-- A credential bundle: string keys to values.  JS object semantics are
modelled by a list of key-value pairs in which the last binding of a key
wins, so that object spread is list append. -/
abbrev Bundle : Type := List (String × JVal)

/-- Look a key up in a bundle (last binding wins, like a JS object built by
assignments and spreads). -/
def lookupB (b : Bundle) (k : String) : Option JVal :=
  ((List.reverse b).find? (fun p => p.1 = k)).map (fun p => p.2)

/-- Remove every binding of a key (JS `delete`). -/
def deleteB (b : Bundle) (k : String) : Bundle :=
  List.filter (fun p => p.1 ≠ k) b

/-- `transformSessionData` (youtube.js lines 30-49): reject an absent cookie;
reject a bundle whose `access_token` or `refresh_token` is not a string;
normalize a truthy `expires` into `expiry_date` (deleting `expires`);
otherwise require a truthy `expiry_date`; return the resulting values. -/
def transformSessionData (cookie : Option Bundle) : Option Bundle :=
  match cookie with
  | none => none
  | some values =>
    if !isStrVal (lookupB values "access_token")
        || !isStrVal (lookupB values "refresh_token") then none
    else
      match lookupB values "expires" with
      | some e =>
        if e.truthy then
          some (deleteB values "expires" ++ [("expiry_date", e)])
        else if !((lookupB values "expiry_date").map JVal.truthy).getD false then none
        else some values
      | none =>
        if !((lookupB values "expiry_date").map JVal.truthy).getD false then none
        else some values

/-- Timestamp equality in the sense of `oldExpiry.getTime() !==
newExpiry.getTime()`: an invalid date (`none`, the JS `NaN`) compares unequal
to everything, itself included. -/
def tsEq : Option Int → Option Int → Bool
  | some a, some b => a == b
  | _, _ => false

/-- `new Date(x).getTime()` for an optional bundle value under an external
date parser `parse`: absent values and non-string values give an invalid
date. -/
def jvalDate (parse : String → Option Int) : Option JVal → Option Int
  | some (.str s) => parse s
  | _ => none

/-- The externally owned OAuth state of the per-call session as it stands
after the `shouldRefreshToken` check (lines 79-82): whether a refresh was
performed, the token fields now held (`session.oauth.oauth2_tokens`), and the
client id fields. -/
structure SessionOAuth where
  shouldRefreshToken : Bool
  oauth2_tokens : Bundle
  client_id : Bundle

/-- Observable outcome of the credential part of `cloneInnertube`
(lines 71-95): authentication flag, whether OAuth state was initialized from
the stored bundle, whether a token refresh ran, the bundle written back to the
credential store (if any), and whether a JS exception escaped
(`toISOString` on an invalid date). -/
structure CloneResult where
  loggedIn : Bool
  didInit : Bool
  didRefresh : Bool
  write : Option Bundle
  threw : Bool

/-- Lines 71-95 of `cloneInnertube`: read the `youtube_oauth` bundle, validate
it via `transformSessionData`, initialize OAuth and mark the session logged in
when valid; when logged in, refresh the token if needed, then compare the raw
stored bundle's `expiry_date` with the session's token expiry as timestamps
and, exactly when they differ, write back the merge of the client id, the
token fields, and the new expiry serialized by the external `iso`
(`Date.prototype.toISOString`).  `parse` is the external `new Date(string)`
parser. -/
def cloneSessionModel (parse : String → Option Int) (iso : Int → String)
    (cookie : Option Bundle) (sess : SessionOAuth) : CloneResult :=
  match transformSessionData cookie with
  | none => ⟨false, false, false, none, false⟩
  | some _ =>
    let cookieValues : Bundle := cookie.getD []
    let oldExpiry := jvalDate parse (lookupB cookieValues "expiry_date")
    let newExpiry := jvalDate parse (lookupB sess.oauth2_tokens "expiry_date")
    if tsEq oldExpiry newExpiry then
      ⟨true, true, sess.shouldRefreshToken, none, false⟩
    else
      match newExpiry with
      | some t =>
        ⟨true, true, sess.shouldRefreshToken,
          some (sess.client_id ++ sess.oauth2_tokens ++ [("expiry_date", .str (iso t))]),
          false⟩
      | none => ⟨true, true, sess.shouldRefreshToken, none, true⟩

/-- `PLAYER_REFRESH_PERIOD` (line 8), in milliseconds. -/
def PLAYER_REFRESH_PERIOD : Int := 1000 * 60 * 15

/-- The module-level mutable state `innertube, lastRefreshedAt` (line 10).
The client is represented by a generation counter so rebuilds are
observable. -/
structure InnerState where
  innertube : Option Nat
  lastRefreshedAt : Option Int
deriving DecidableEq, Repr

/-- `lastRefreshedAt + PLAYER_REFRESH_PERIOD < new Date()` (line 52): with
`lastRefreshedAt` still `undefined` the comparison is `NaN < now`, which is
false. -/
def shouldRefreshPlayer (s : InnerState) (now : Int) : Bool :=
  match s.lastRefreshedAt with
  | none => false
  | some t => t + PLAYER_REFRESH_PERIOD < now

/-- Lines 52-58: rebuild the shared client when it is absent or stale, setting
`lastRefreshedAt` to the current time; otherwise leave the state alone.
Returns the new state and whether a rebuild happened. -/
def acquireClient (s : InnerState) (now : Int) : InnerState × Bool :=
  if s.innertube.isNone || shouldRefreshPlayer s now then
    ({ innertube := some (s.innertube.getD 0 + 1), lastRefreshedAt := some now }, true)
  else (s, false)

/-! ### Helper observations on the pipeline -/

/-- The `youtubeDubName` carried by a successful plan. -/
def planDubName : MediaResult → Option (Option String)
  | .audioPlan _ _ fn _ => some fn.youtubeDubName
  | .merge _ _ fn _ => some fn.youtubeDubName
  | _ => none

/-- The playability switch never yields a successful plan. -/
theorem playabilitySwitch_not_plan {p : Playability} {r : MediaResult}
    (h : playabilitySwitch p = some r) : r.isPlan = false := by
  unfold playabilitySwitch at h
  repeat' split at h
  all_goals (cases h <;> rfl)

/-- The gate never yields a successful plan. -/
theorem gateAndChecks_not_plan {dl : Int} {o : Options} {info : Info} {r : MediaResult}
    (h : gateAndChecks dl o info = some r) : r.isPlan = false := by
  unfold gateAndChecks at h
  cases hs : playabilitySwitch info.playability_status with
  | some r' =>
    rw [hs] at h
    cases h
    exact playabilitySwitch_not_plan hs
  | none =>
    rw [hs] at h
    repeat' split at h
    all_goals (first | (cases h <;> rfl) | simp_all)

/-- When the gate passes, the returned id matched the requested one. -/
theorem gateAndChecks_none_id {dl : Int} {o : Options} {info : Info}
    (h : gateAndChecks dl o info = none) : info.basic_info.id = o.id := by
  unfold gateAndChecks at h
  cases hs : playabilitySwitch info.playability_status with
  | some r' => rw [hs] at h; cases h
  | none =>
    rw [hs] at h
    repeat' split at h
    all_goals (try cases h)
    all_goals tauto

/-- A successful plan comes from the plan-building stage. -/
theorem resolveInfo_plan_eq_buildPlan {clean : String → String} {dl : Int}
    {o : Options} {info : Info}
    (h : (resolveInfo clean dl o info).isPlan = true) :
    resolveInfo clean dl o info = buildPlan clean o info
    ∧ gateAndChecks dl o info = none := by
  unfold resolveInfo at h ⊢
  cases hg : gateAndChecks dl o info with
  | some r =>
    rw [hg] at h
    rw [gateAndChecks_not_plan hg] at h
    cases h
  | none => exact ⟨rfl, rfl⟩

/-- Exhaustive description of the plan-building stage's outcomes. -/
theorem buildPlan_cases (clean : String → String) (o : Options) (info : Info) :
    (∃ code crit, buildPlan clean o info = .err code crit)
    ∨ (∃ a, (theAudio o info).1 = some a ∧ o.isAudioOnly = true
        ∧ buildPlan clean o info
          = .audioPlan a.url (if theFormat o info = "h264" then "m4a" else "opus")
              (baseFn o info (mkFileMetadata clean info.basic_info))
              (mkFileMetadata clean info.basic_info))
    ∨ (∃ v a, selectVideo (theAfs o info) o.quality (theBestVideo o info) = some v
        ∧ (theAudio o info).1 = some a
        ∧ buildPlan clean o info
          = .merge v.url a.url (mergeFn o info (mkFileMetadata clean info.basic_info) v)
              (mkFileMetadata clean info.basic_info)) := by
  by_cases hempty : (((theBestVideo o info).isNone && !o.isAudioOnly)
      || ((theHasAudio o info).isNone && o.isAudioOnly)) = true
  · exact Or.inl ⟨"fetch.empty", false, by unfold buildPlan; rw [if_pos hempty]⟩
  · rw [Bool.not_eq_true] at hempty
    cases ha : (theAudio o info).1 with
    | some a =>
      cases hao : o.isAudioOnly with
      | true =>
        refine Or.inr (Or.inl ⟨a, rfl, rfl, ?_⟩)
        unfold buildPlan
        rw [hempty]
        simp [ha, hao]
      | false =>
        cases hv : selectVideo (theAfs o info) o.quality (theBestVideo o info) with
        | some v =>
          refine Or.inr (Or.inr ⟨v, a, rfl, rfl, ?_⟩)
          unfold buildPlan
          rw [hempty]
          simp [ha, hao, hv]
        | none =>
          refine Or.inl ⟨"fetch.fail", false, ?_⟩
          unfold buildPlan
          rw [hempty]
          simp [ha, hao, hv]
    | none =>
      cases hv : selectVideo (theAfs o info) o.quality (theBestVideo o info) with
      | some v =>
        refine Or.inl ⟨"fetch.fail", false, ?_⟩
        unfold buildPlan
        rw [hempty]
        simp [ha, hv]
      | none =>
        refine Or.inl ⟨"fetch.fail", false, ?_⟩
        unfold buildPlan
        rw [hempty]
        simp [ha, hv]

/-! ### Session lifecycle helper lemmas -/

/-- A rebuild happens exactly when the client is absent or strictly more than
the refresh period has elapsed. -/
theorem acquireClient_snd_iff (s : InnerState) (now : Int) :
    (acquireClient s now).2 = true ↔
      (s.innertube = none
        ∨ ∃ t, s.lastRefreshedAt = some t ∧ now - t > PLAYER_REFRESH_PERIOD) := by
  rcases s with ⟨inn, last⟩
  cases inn with
  | none => simp [acquireClient]
  | some g =>
    cases last with
    | none => simp [acquireClient, shouldRefreshPlayer]
    | some t =>
      by_cases h : t + PLAYER_REFRESH_PERIOD < now
      · simp [acquireClient, shouldRefreshPlayer, h]
        omega
      · simp [acquireClient, shouldRefreshPlayer, h]
        omega

/-- A rebuild stamps the current time and installs a client. -/
theorem acquireClient_state_of_rebuild {s : InnerState} {now : Int}
    (h : (acquireClient s now).2 = true) :
    (acquireClient s now).1.lastRefreshedAt = some now
    ∧ (acquireClient s now).1.innertube ≠ none := by
  unfold acquireClient at h ⊢
  split at h
  next hc => rw [if_pos hc]; exact ⟨rfl, by simp⟩
  next hc => cases h

/-! ### Claims C5, C6, C7: session lifecycle -/

/-- C5: for every authenticated session build, the credential-store update is
invoked if and only if the stored bundle's `expiry_date` differs — compared as
a timestamp, an absent or unparseable value being an invalid timestamp that
compares unequal to everything — from the session's token expiry after the
refresh check; when they are equal nothing is written, and when they differ
the written bundle merges the client id, the token fields, and the new expiry
serialized by the external ISO-8601 serializer. -/
theorem claim_C5_theorem :
    ∀ (parse : String → Option Int) (iso : Int → String) (cookie : Bundle)
      (sess : SessionOAuth) (d : Bundle) (t : Int),
      transformSessionData (some cookie) = some d →
      jvalDate parse (lookupB sess.oauth2_tokens "expiry_date") = some t →
      ((cloneSessionModel parse iso (some cookie) sess).write ≠ none ↔
          tsEq (jvalDate parse (lookupB cookie "expiry_date")) (some t) = false)
      ∧ (tsEq (jvalDate parse (lookupB cookie "expiry_date")) (some t) = true →
          (cloneSessionModel parse iso (some cookie) sess).write = none)
      ∧ (tsEq (jvalDate parse (lookupB cookie "expiry_date")) (some t) = false →
          (cloneSessionModel parse iso (some cookie) sess).write
            = some (sess.client_id ++ sess.oauth2_tokens
                ++ [("expiry_date", .str (iso t))]))
      ∧ (cloneSessionModel parse iso (some cookie) sess).threw = false
      ∧ (cloneSessionModel parse iso (some cookie) sess).loggedIn = true := by
  intro parse iso cookie sess d t htrans hnew
  simp only [cloneSessionModel, htrans, Option.getD_some, hnew]
  cases hts : tsEq (jvalDate parse (lookupB cookie "expiry_date")) (some t) with
  | true => simp [hts]
  | false => simp [hts]

/-- External serializer used by concrete session witnesses. -/
def isoW : Int → String := fun t => "iso:" ++ toString t

/-- Concrete stored bundle for the C5 witness. -/
def cookieC5 : Bundle :=
  [("access_token", .str "at"), ("refresh_token", .str "rt"),
   ("expiry_date", .str "100")]

/-- Concrete session OAuth state for the C5 witness. -/
def sessC5 : SessionOAuth :=
  { shouldRefreshToken := false
    oauth2_tokens := [("access_token", .str "at2"), ("expiry_date", .str "200")]
    client_id := [("client_id", .str "cid")] }

/-- Witness for C5: a stored expiry of 100 differing from a session expiry of
200 produces exactly the merged write-back. -/
theorem claim_C5_witness :
    (cloneSessionModel jsNumberStr isoW (some cookieC5) sessC5).write
      = some (sessC5.client_id ++ sessC5.oauth2_tokens
          ++ [("expiry_date", .str (isoW 200))]) :=
  (claim_C5_theorem jsNumberStr isoW cookieC5 sessC5 cookieC5 200
    (by decide) (by decide)).2.2.1 (by decide)

/-- C6 counterexample: with a client present and exactly 15 minutes elapsed
(`now - lastRefreshedAt = PLAYER_REFRESH_PERIOD`), the code does NOT rebuild,
although the elapsed time is at least 15 minutes as the claim requires. -/
theorem claim_C6_counterexample :
    (acquireClient ⟨some 1, some 0⟩ 900000).2 = false
    ∧ (900000 : Int) - 0 ≥ PLAYER_REFRESH_PERIOD
    ∧ (⟨some 1, some 0⟩ : InnerState).innertube ≠ none := by
  refine ⟨by decide, by decide, by decide⟩

/-- C6 amended: the shared client is rebuilt exactly when it is absent or when
now minus `lastRefreshedAt` strictly exceeds 15 minutes (rebuilding stamps
`lastRefreshedAt := now`); consequently two sequential resolutions no more
than 15 minutes apart perform at most one rebuild. -/
theorem claim_C6_theorem :
    (∀ (s : InnerState) (now : Int),
       (acquireClient s now).2 = true ↔
         (s.innertube = none
           ∨ ∃ t, s.lastRefreshedAt = some t ∧ now - t > PLAYER_REFRESH_PERIOD))
    ∧ (∀ (s : InnerState) (now : Int), (acquireClient s now).2 = true →
         (acquireClient s now).1.lastRefreshedAt = some now)
    ∧ (∀ (s : InnerState) (now1 now2 : Int),
         now2 - now1 ≤ PLAYER_REFRESH_PERIOD →
         ¬((acquireClient s now1).2 = true
            ∧ (acquireClient (acquireClient s now1).1 now2).2 = true)) := by
  refine ⟨acquireClient_snd_iff, fun s now h => (acquireClient_state_of_rebuild h).1, ?_⟩
  intro s now1 now2 hwin
  rintro ⟨h1, h2⟩
  obtain ⟨hl, hi⟩ := acquireClient_state_of_rebuild h1
  rw [acquireClient_snd_iff] at h2
  rcases h2 with h2 | ⟨t, ht, hgt⟩
  · exact hi h2
  · rw [hl] at ht
    injection ht with ht'
    omega

/-- Witness for C6: two calls 1000 ms apart rebuild at most once. -/
theorem claim_C6_witness :
    ¬((acquireClient ⟨none, none⟩ 0).2 = true
       ∧ (acquireClient (acquireClient ⟨none, none⟩ 0).1 1000).2 = true) :=
  claim_C6_theorem.2.2 ⟨none, none⟩ 0 1000 (by decide)

/-- C7: a stored bundle lacking `access_token` or `refresh_token` as strings,
or carrying neither `expires` nor `expiry_date`, is treated as absent: the
session proceeds unauthenticated, with no OAuth initialization, no refresh,
no store write-back, and no exception. -/
theorem claim_C7_theorem :
    ∀ (parse : String → Option Int) (iso : Int → String) (cookie : Bundle)
      (sess : SessionOAuth),
      (isStrVal (lookupB cookie "access_token") = false
        ∨ isStrVal (lookupB cookie "refresh_token") = false
        ∨ (lookupB cookie "expires" = none ∧ lookupB cookie "expiry_date" = none)) →
      transformSessionData (some cookie) = none
      ∧ cloneSessionModel parse iso (some cookie) sess
          = { loggedIn := false, didInit := false, didRefresh := false,
              write := none, threw := false } := by
  intro parse iso cookie sess h
  have htrans : transformSessionData (some cookie) = none := by
    rcases h with h | h | ⟨h1, h2⟩
    · simp [transformSessionData, h]
    · simp [transformSessionData, h]
    · simp only [transformSessionData]
      split
      · rfl
      · rw [h1]
        simp [h2]
  refine ⟨htrans, ?_⟩
  unfold cloneSessionModel
  rw [htrans]

/-- Concrete session OAuth state for session witnesses. -/
def sessC7 : SessionOAuth :=
  { shouldRefreshToken := true
    oauth2_tokens := [("expiry_date", .str "200")]
    client_id := [] }

/-- Witness for C7: a bundle with only an access token is treated as absent. -/
theorem claim_C7_witness :
    transformSessionData (some [("access_token", JVal.str "at")]) = none
    ∧ cloneSessionModel jsNumberStr isoW (some [("access_token", JVal.str "at")]) sessC7
        = { loggedIn := false, didInit := false, didRefresh := false,
            write := none, threw := false } :=
  claim_C7_theorem jsNumberStr isoW [("access_token", JVal.str "at")] sessC7
    (Or.inr (Or.inl (by decide)))

/-! ### Concrete inputs for pipeline claims -/

/-- The video URL of a merged plan, if any. -/
def MediaResult.videoUrl : MediaResult → Option String
  | .merge v _ _ _ => some v
  | _ => none

/-- A 720p h264 adaptive video variant with the highest bitrate. -/
def vC720 : StreamVariant :=
  { mime_type := "video/mp4; codecs=\"avc1.64001f\"", bitrate := 50,
    has_video := true, has_audio := false, content_length := some 100,
    quality_label := some "720p", width := 1280, height := 720,
    language := none, is_original := false, audio_track := none, url := "u720" }

/-- A 1080p h264 adaptive video variant with a lower bitrate. -/
def vC1080 : StreamVariant :=
  { mime_type := "video/mp4; codecs=\"avc1.640028\"", bitrate := 30,
    has_video := true, has_audio := false, content_length := some 200,
    quality_label := some "1080p", width := 1920, height := 1080,
    language := none, is_original := false, audio_track := none, url := "u1080" }

/-- An original-language audio-only variant. -/
def aC : StreamVariant :=
  { mime_type := "audio/mp4; codecs=\"mp4a.40.2\"", bitrate := 12,
    has_video := false, has_audio := true, content_length := some 50,
    quality_label := none, width := 0, height := 0,
    language := some "en", is_original := true, audio_track := none, url := "ua" }

/-- A playable info whose best-bitrate video is the 720p variant while a
1080p variant is present. -/
def infoC1 : Info :=
  { playability_status := { status := "OK" }
    basic_info :=
      { id := "abc", title := "T", author := "A", duration := 60,
        is_live := false, short_description := none }
    streaming_data := ⟨[vC720, vC1080, aC]⟩ }

/-- A request for the maximal quality. -/
def oC1 : Options := { id := "abc", quality := some "max" }

/-! ### Claim C1: quality clamp -/

/-- C1 counterexample: requesting quality `"max"` on a variant set whose
highest-bitrate qualifying video is 720p while a 1080p adaptive video variant
is present selects the 720p variant (`u720`), not the single
highest-quality-label adaptive video variant (`u1080`). -/
theorem claim_C1_counterexample :
    (resolveInfo (fun s => s) 10000 oC1 infoC1).videoUrl = some "u720"
    ∧ vC1080 ∈ infoC1.streaming_data.adaptive_formats
    ∧ vC1080.has_video = true ∧ vC1080.has_audio = false
    ∧ vC1080.url = "u1080"
    ∧ (∀ i ∈ infoC1.streaming_data.adaptive_formats,
        i.has_video = true → i ≠ vC1080 →
        jsGt (jsNumberOpt (qual vC1080)) (jsNumberOpt (qual i)) = true)
    ∧ "u720" ≠ "u1080" := by
  decide

/-- C1 amended: a variant's `quality_label` is parsed as its prefix before the
first `'p'` or `'s'`; requested quality `"max"` maps to the sentinel `"9000"`;
a requested numeric quality strictly exceeding the parsed quality of the
best-video candidate (the first bitrate-sorted variant with video and truthy
content length) is clamped down to that candidate's parsed quality, otherwise
it is used as is; and the merged-plan video is the first variant with the
resulting parsed quality that has video and no audio.  In particular `"max"`
resolves to the first adaptive-only variant sharing the best-bitrate
candidate's parsed quality — not necessarily the variant with the highest
quality label. -/
theorem claim_C1_theorem :
    (∀ (afs : List StreamVariant) (bv : Option StreamVariant) (q : String) (m : Int),
       q ≠ "max" → jsNumberStr q = some m →
       jsGt (some m) (jsNumberOpt (bv.bind qual)) = false →
       selectVideo afs (some q) bv
         = afs.find? (fun i => qual i == some q && i.has_video && !i.has_audio))
    ∧ (∀ (afs : List StreamVariant) (bv : Option StreamVariant) (q : String) (m : Int),
       q ≠ "max" → jsNumberStr q = some m →
       jsGt (some m) (jsNumberOpt (bv.bind qual)) = true →
       selectVideo afs (some q) bv
         = afs.find? (fun i => qual i == bv.bind qual && i.has_video && !i.has_audio))
    ∧ (∀ (afs : List StreamVariant) (b : StreamVariant) (s : String) (n : Int),
       qual b = some s → jsNumberStr s = some n → n < 9000 →
       selectVideo afs (some "max") (some b)
         = afs.find? (fun i => qual i == some s && i.has_video && !i.has_audio))
    ∧ (∀ (afs : List StreamVariant) (oq : Option String) (bv : Option StreamVariant)
         (v : StreamVariant),
       selectVideo afs oq bv = some v →
       v.has_video = true ∧ v.has_audio = false) := by
  refine ⟨?_, ?_, ?_, ?_⟩
  · intro afs bv q m hq hm hgt
    have hne : ¬((some q : Option String) = some "max") := by simp [hq]
    have hq1 : jsNumberOpt (some q) = some m := hm
    simp only [selectVideo, if_neg hne, hq1, hgt]
    simp
  · intro afs bv q m hq hm hgt
    have hne : ¬((some q : Option String) = some "max") := by simp [hq]
    have hq1 : jsNumberOpt (some q) = some m := hm
    simp only [selectVideo, if_neg hne, hq1, hgt]
    simp
  · intro afs b s n hs hn hlt
    have h9 : jsNumberOpt (some "9000") = some 9000 := by decide
    have hn1 : jsNumberOpt (some s) = some n := hn
    have hgt : jsGt (some 9000) (some n) = true := by
      simp only [jsGt, decide_eq_true_eq]
      omega
    have hcond : jsGt (jsNumberOpt (some "9000")) (some n) = true := by
      rw [h9]
      exact hgt
    simp only [selectVideo, Option.some_bind, hs, hn1]
    simp only [reduceIte]
    simp only [hcond]
    simp
  · intro afs oq bv v h
    have hp := List.find?_some h
    simp only [Bool.and_eq_true] at hp
    exact ⟨hp.1.2, by simpa using hp.2⟩

/-- Witness for C1: on the concrete variant set, `"max"` resolves through the
clamp to the 720p search. -/
theorem claim_C1_witness :
    selectVideo [vC720, vC1080, aC] (some "max") (some vC720)
      = [vC720, vC1080, aC].find?
          (fun i => qual i == some "720" && i.has_video && !i.has_audio) :=
  claim_C1_theorem.2.2.1 [vC720, vC1080, aC] vC720 "720" 720
    (by decide) (by decide) (by decide)

/-! ### Claim C2: codec fallback -/

/-- C2: when filtering for vp9 or av1 yields zero variants, selection is
retried exactly once with h264, the retried result being used downstream (the
whole plan-building stage behaves as if h264 had been requested); with
nonzero h264 matches the retried selection is that nonempty h264 filtering. -/
theorem claim_C2_theorem :
    (∀ (afs : List StreamVariant) (fmt : String),
       (fmt = "vp9" ∨ fmt = "av1") → filterByCodec fmt afs = [] →
       resolveFormats afs fmt = ("h264", filterByCodec "h264" afs))
    ∧ (∀ (clean : String → String) (o : Options) (info : Info) (fmt : String),
       o.format = some fmt → (fmt = "vp9" ∨ fmt = "av1") →
       filterByCodec fmt info.streaming_data.adaptive_formats = [] →
       buildPlan clean o info = buildPlan clean { o with format := some "h264" } info)
    ∧ (∀ afs : List StreamVariant,
       filterByCodec "av1" afs = [] → filterByCodec "h264" afs ≠ [] →
       resolveFormats afs "av1" = ("h264", filterByCodec "h264" afs)
       ∧ (resolveFormats afs "av1").2 ≠ []) := by
  refine ⟨?_, ?_, ?_⟩
  · intro afs fmt hf hempty
    rcases hf with rfl | rfl <;> simp [resolveFormats, hempty]
  · intro clean o info fmt ho hf hempty
    have h1 : format0 o = fmt := by
      rcases hf with rfl | rfl <;> simp [format0, ho]
    have h2 : format0 { o with format := some "h264" } = "h264" := by
      simp [format0]
    have hpair : resolvedPair o info = resolvedPair { o with format := some "h264" } info := by
      rw [resolvedPair, resolvedPair, h1, h2]
      rcases hf with rfl | rfl <;> simp [resolveFormats, hempty]
    simp only [buildPlan, theBestVideo, theHasAudio, theAudio, theFormat, theAfs,
      baseFn, mergeFn, hpair]
  · intro afs h1 h2
    have h3 : resolveFormats afs "av1" = ("h264", filterByCodec "h264" afs) := by
      simp [resolveFormats, h1]
    exact ⟨h3, by rw [h3]; exact h2⟩

/-- Witness for C2: a single avc1 variant has no av1 matches, so av1 falls
back to the h264 filtering. -/
theorem claim_C2_witness :
    resolveFormats [vC720] "av1" = ("h264", filterByCodec "h264" [vC720]) :=
  claim_C2_theorem.1 [vC720] "av1" (Or.inr rfl) (by decide)

/-! ### Claim C3: audio selection precedence -/

/-- Original-language audio track: audio-only, with track metadata, marked as
the default track. -/
def aOrigC3 : StreamVariant :=
  { mime_type := "audio/mp4; codecs=\"mp4a.40.2\"", bitrate := 90,
    has_video := false, has_audio := true, content_length := some 50,
    quality_label := none, width := 0, height := 0,
    language := some "en", is_original := true, audio_track := some ⟨true⟩,
    url := "uorig" }

/-- A dub track in Spanish marked as its own default, with a higher bitrate
than the non-default one. -/
def aDubDefC3 : StreamVariant :=
  { mime_type := "audio/mp4; codecs=\"mp4a.40.2\"", bitrate := 80,
    has_video := false, has_audio := true, content_length := some 50,
    quality_label := none, width := 0, height := 0,
    language := some "es", is_original := false, audio_track := some ⟨true⟩,
    url := "udef" }

/-- A dub track in Spanish that is NOT its own default. -/
def aDubNonC3 : StreamVariant :=
  { mime_type := "audio/mp4; codecs=\"mp4a.40.2\"", bitrate := 70,
    has_video := false, has_audio := true, content_length := some 50,
    quality_label := none, width := 0, height := 0,
    language := some "es", is_original := false, audio_track := some ⟨false⟩,
    url := "unondef" }

/-- A filtered variant set in which a default Spanish dub track precedes a
non-default one in sorted order. -/
def afsC3 : List StreamVariant := [aOrigC3, aDubDefC3, aDubNonC3]

/-- C3 counterexample: a track matching the requested dub language, carrying
audio-track metadata and not its own default (`aDubNonC3`) exists in the set,
yet audio selection keeps the original track and does not mark the result
dubbed, because the first language-matching track found is a default one that
shadows it. -/
theorem claim_C3_counterexample :
    (selectAudio afsC3 (some "es")).1 = some aOrigC3
    ∧ (selectAudio afsC3 (some "es")).2 = false
    ∧ aDubNonC3 ∈ afsC3
    ∧ checkBestAudio aDubNonC3 = true
    ∧ aDubNonC3.language = some "es"
    ∧ aDubNonC3.audio_track.isSome = true
    ∧ trackIsDefault aDubNonC3 = false
    ∧ aDubNonC3 ≠ aOrigC3 := by
  decide

/-- C3 amended: audio selection prefers the first audio-only `is_original`
track; when a (truthy) dub language is requested, the FIRST audio-only track
matching that language with audio-track metadata is examined, and it
overrides the original and marks the result dubbed exactly when it is not its
own default (a non-default matching track preceded by a default matching one
is shadowed and does not override); otherwise the first audio-only track in
sorted order is used; a dub track that is its own default never displaces the
original audio; and a plan's `youtubeDubName` is the requested dub language
exactly when the override fired. -/
theorem claim_C3_theorem :
    (∀ (afs : List StreamVariant) (lang : String) (d : StreamVariant),
       lang ≠ "" → afs.find? (dubCond lang) = some d → trackIsDefault d = false →
       selectAudio afs (some lang) = (some d, true))
    ∧ (∀ (afs : List StreamVariant) (lang : String) (d : StreamVariant),
       lang ≠ "" → afs.find? (dubCond lang) = some d → trackIsDefault d = true →
       selectAudio afs (some lang)
         = (match afs.find? (fun i => checkBestAudio i && i.is_original) with
            | some a => some a
            | none => afs.find? checkBestAudio, false))
    ∧ (∀ afs : List StreamVariant,
       selectAudio afs none
         = (match afs.find? (fun i => checkBestAudio i && i.is_original) with
            | some a => some a
            | none => afs.find? checkBestAudio, false))
    ∧ (∀ (afs : List StreamVariant) (lang : String) (d a : StreamVariant),
       afs.find? (dubCond lang) = some d → trackIsDefault d = true →
       afs.find? (fun i => checkBestAudio i && i.is_original) = some a →
       (selectAudio afs (some lang)).1 = some a)
    ∧ (∀ (clean : String → String) (dl : Int) (o : Options) (info : Info),
       (resolveInfo clean dl o info).isPlan = true →
       planDubName (resolveInfo clean dl o info)
         = some (if (theAudio o info).2 then o.dubLang else none)) := by
  refine ⟨?_, ?_, ?_, ?_, ?_⟩
  · intro afs lang d hl hd hdef
    simp only [selectAudio, if_neg hl, hd, hdef]
    simp
  · intro afs lang d hl hd hdef
    simp only [selectAudio, if_neg hl, hd, hdef]
    cases ho : afs.find? (fun i => checkBestAudio i && i.is_original) <;> simp [ho]
  · intro afs
    simp only [selectAudio]
    cases ho : afs.find? (fun i => checkBestAudio i && i.is_original) <;> simp [ho]
  · intro afs lang d a hd hdef ho
    by_cases hl : lang = ""
    · subst hl
      simp only [selectAudio, if_pos rfl, ho]
      simp
    · simp only [selectAudio, if_neg hl, hd, hdef, ho]
      simp
  · intro clean dl o info h
    obtain ⟨heq, -⟩ := resolveInfo_plan_eq_buildPlan h
    rw [heq] at h ⊢
    rcases buildPlan_cases clean o info with ⟨c, cr, hbp⟩ | ⟨a, ha, hao, hbp⟩
      | ⟨v, a, hv, ha, hbp⟩
    · rw [hbp] at h
      simp [MediaResult.isPlan] at h
    · rw [hbp]
      simp [planDubName, baseFn]
    · rw [hbp]
      simp [planDubName, mergeFn, baseFn]

/-- Witness for C3: a sole non-default matching dub track does override. -/
theorem claim_C3_witness :
    selectAudio [aDubNonC3] (some "es") = (some aDubNonC3, true) :=
  claim_C3_theorem.1 [aDubNonC3] "es" aDubNonC3 (by decide) (by decide) (by decide)

/-! ### Claim C4: id-mismatch integrity -/

/-- C4: an otherwise playable info whose id differs from the requested one
yields the critical `fetch.fail` error, and no successful plan is ever
produced when the ids differ. -/
theorem claim_C4_theorem :
    (∀ (clean : String → String) (dl : Int) (o : Options) (info : Info),
       info.playability_status.status = "OK" →
       info.basic_info.is_live = false →
       ¬info.basic_info.duration > dl →
       info.basic_info.id ≠ o.id →
       resolveInfo clean dl o info = .err "fetch.fail" true)
    ∧ (∀ (clean : String → String) (dl : Int) (o : Options) (info : Info),
       (resolveInfo clean dl o info).isPlan = true →
       info.basic_info.id = o.id) := by
  constructor
  · intro clean dl o info hok hlive hdur hid
    have hsw : playabilitySwitch info.playability_status = none := by
      unfold playabilitySwitch
      rw [hok]
      simp
    unfold resolveInfo gateAndChecks
    rw [hsw]
    simp [hok, hlive, hdur, hid]
  · intro clean dl o info h
    exact gateAndChecks_none_id (resolveInfo_plan_eq_buildPlan h).2

/-- An OK, non-live, short info whose id is `"abc"`. -/
def infoC4 : Info :=
  { playability_status := { status := "OK" }
    basic_info :=
      { id := "abc", title := "T", author := "A", duration := 60,
        is_live := false, short_description := none }
    streaming_data := ⟨[]⟩ }

/-- A request for a different id. -/
def oC4 : Options := { id := "xyz" }

/-- Witness for C4: requesting `"xyz"` while the info is for `"abc"` is the
critical fetch failure. -/
theorem claim_C4_witness :
    resolveInfo (fun s => s) 100 oC4 infoC4 = .err "fetch.fail" true :=
  claim_C4_theorem.1 (fun s => s) 100 oC4 infoC4 rfl rfl (by decide) (by decide)

/-! ### Claim C8: LOGIN_REQUIRED fall-through -/

/-- A LOGIN_REQUIRED status carrying no reason at all. -/
def infoC8 : Info :=
  { playability_status :=
      { status := "LOGIN_REQUIRED", reason := none, error_screen := none }
    basic_info :=
      { id := "abc", title := "T", author := "A", duration := 60,
        is_live := false, short_description := none }
    streaming_data := ⟨[]⟩ }

/-- The request matching `infoC8`. -/
def oC8 : Options := { id := "abc" }

/-- C8 counterexample: on a LOGIN_REQUIRED info whose reason field is absent,
evaluation raises (the source reads `playability.reason.endsWith` without
optional chaining) instead of falling through to the generic
`content.video.unavailable` error. -/
theorem claim_C8_counterexample :
    resolveInfo (fun s => s) 100 oC8 infoC8 = .thrown
    ∧ (MediaResult.thrown ≠ .err "content.video.unavailable" false) := by
  decide

/-- C8 amended: for LOGIN_REQUIRED with a PRESENT reason ending with neither
"bot" nor "age" and an error-screen reason that is not "Private video",
evaluation falls through to the generic non-OK check and returns
`content.video.unavailable`; when the reason field is absent, evaluation
raises a TypeError instead. -/
theorem claim_C8_theorem :
    (∀ (clean : String → String) (dl : Int) (o : Options) (info : Info) (r : String),
       info.playability_status.status = "LOGIN_REQUIRED" →
       info.playability_status.reason = some r →
       jsEndsWith r "bot" = false →
       jsEndsWith r "age" = false →
       screenReasonText info.playability_status ≠ some "Private video" →
       resolveInfo clean dl o info = .err "content.video.unavailable" false)
    ∧ (∀ (clean : String → String) (dl : Int) (o : Options) (info : Info),
       info.playability_status.status = "LOGIN_REQUIRED" →
       info.playability_status.reason = none →
       resolveInfo clean dl o info = .thrown) := by
  constructor
  · intro clean dl o info r hst hres hbot hage hscreen
    have hsw : playabilitySwitch info.playability_status = none := by
      unfold playabilitySwitch
      rw [hst, hres]
      simp [hbot, hage, hscreen]
    unfold resolveInfo gateAndChecks
    rw [hsw]
    simp [hst]
  · intro clean dl o info hst hres
    have hsw : playabilitySwitch info.playability_status = some .thrown := by
      unfold playabilitySwitch
      rw [hst, hres]
      simp
    unfold resolveInfo gateAndChecks
    rw [hsw]

/-- A LOGIN_REQUIRED info with a reason matching none of the recognized
suffixes. -/
def infoC8b : Info :=
  { playability_status :=
      { status := "LOGIN_REQUIRED", reason := some "Sign in to confirm",
        error_screen := none }
    basic_info :=
      { id := "abc", title := "T", author := "A", duration := 60,
        is_live := false, short_description := none }
    streaming_data := ⟨[]⟩ }

/-- Witness for C8: the unrecognized LOGIN_REQUIRED reason falls through to
the generic unavailable error. -/
theorem claim_C8_witness :
    resolveInfo (fun s => s) 100 oC8 infoC8b
      = .err "content.video.unavailable" false :=
  claim_C8_theorem.1 (fun s => s) 100 oC8 infoC8b "Sign in to confirm"
    rfl rfl (by decide) (by decide) (by decide)

/-! ### Claim C9: description-template metadata -/

/-- A topic-style description whose fifth segment has no space after the
"Released on:" colon. -/
def biC9 : BasicInfo :=
  { id := "abc", title := "T", author := "A", duration := 60, is_live := false,
    short_description :=
      some "Provided to YouTube by L\n\nT2\n\nAlb\n\nCop\n\nReleased on:2020" }

/-- C9 counterexample: segment 4 starts with the prefix `"Released on:"`, so
the claim demands the date `"2020"` (the prefix stripped and trimmed), but the
code only removes the string `"Released on: "` with a trailing space — which
does not occur — and stores `"Released on:2020"` unchanged. -/
theorem claim_C9_counterexample :
    (mkFileMetadata (fun s => s) biC9).date = some "Released on:2020"
    ∧ jsStartsWith "Released on:2020" "Released on:" = true
    ∧ jsTrim (String.mk (("Released on:2020".data).drop
        ("Released on:".data.length))) = "2020"
    ∧ some "Released on:2020" ≠ some "2020" := by
  decide

/-- C9 amended: extended metadata appears exactly when the description starts
with "Provided to YouTube by" and splitting on blank lines with limit 5 gives
exactly 5 segments; then album is segment 2, copyright segment 3, and the
date — set only when segment 4 starts with "Released on:" — is segment 4 with
the first occurrence of the string "Released on: " (colon AND following
space) removed and then trimmed; any other description shape yields no
extended metadata. -/
theorem claim_C9_theorem :
    (∀ (clean : String → String) (bi : BasicInfo),
       bi.short_description = none →
       (mkFileMetadata clean bi).album = none
       ∧ (mkFileMetadata clean bi).copyright = none
       ∧ (mkFileMetadata clean bi).date = none)
    ∧ (∀ (clean : String → String) (bi : BasicInfo) (d : String),
       bi.short_description = some d →
       (jsStartsWith d "Provided to YouTube by" = false
         ∨ ((jsSplitBlank d).take 5).length ≠ 5) →
       (mkFileMetadata clean bi).album = none
       ∧ (mkFileMetadata clean bi).copyright = none
       ∧ (mkFileMetadata clean bi).date = none)
    ∧ (∀ (clean : String → String) (bi : BasicInfo) (d : String),
       bi.short_description = some d →
       jsStartsWith d "Provided to YouTube by" = true →
       ((jsSplitBlank d).take 5).length = 5 →
       (mkFileMetadata clean bi).album = ((jsSplitBlank d).take 5).get? 2
       ∧ (mkFileMetadata clean bi).copyright = ((jsSplitBlank d).take 5).get? 3
       ∧ (mkFileMetadata clean bi).date
          = (match ((jsSplitBlank d).take 5).get? 4 with
             | some s4 =>
               if jsStartsWith s4 "Released on:" then
                 some (jsTrim (jsReplaceFirst s4 "Released on: "))
               else none
             | none => none)) := by
  refine ⟨?_, ?_, ?_⟩
  · intro clean bi h
    simp [mkFileMetadata, h]
  · intro clean bi d hd hshape
    rcases hshape with hstart | hlen
    · simp [mkFileMetadata, hd, hstart]
    · by_cases hst : jsStartsWith d "Provided to YouTube by" = true
      · have hlen' : ¬5 ≤ (jsSplitBlank d).length := by
          rw [List.length_take] at hlen
          omega
        simp [mkFileMetadata, hd, hst, hlen']
      · simp only [Bool.not_eq_true] at hst
        simp [mkFileMetadata, hd, hst]
  · intro clean bi d hd hst hlen
    simp [mkFileMetadata, hd, hst, hlen]

/-- The same description with a space after the colon. -/
def biC9b : BasicInfo :=
  { id := "abc", title := "T", author := "A", duration := 60, is_live := false,
    short_description :=
      some "Provided to YouTube by L\n\nT2\n\nAlb\n\nCop\n\nReleased on: 2020" }

/-- Witness for C9: with the space present the replacement fires and the date
is the trimmed remainder. -/
theorem claim_C9_witness :
    (mkFileMetadata (fun s => s) biC9b).date = some "2020" := by
  have h := claim_C9_theorem.2.2 (fun s => s) biC9b
    "Provided to YouTube by L\n\nT2\n\nAlb\n\nCop\n\nReleased on: 2020"
    rfl (by decide) (by decide)
  rw [h.2.2]
  decide

/-! ### Claim C10: default format is h264 -/

/-- C10: when no (truthy) format is supplied the h264 family is used:
filtering matches the avc1/mp4a tags, an audio-only plan's `bestAudio` is
`"m4a"`, and a merged plan's extension is `"mp4"`. -/
theorem claim_C10_theorem :
    ∀ (clean : String → String) (dl : Int) (o : Options) (info : Info),
      (o.format = none ∨ o.format = some "") →
      theFormat o info = "h264"
      ∧ theAfs o info = filterByCodec "h264" info.streaming_data.adaptive_formats
      ∧ codecList "h264" = ⟨"avc1", "mp4a", "mp4"⟩
      ∧ (∀ u ba fn fm, resolveInfo clean dl o info = .audioPlan u ba fn fm →
          ba = "m4a")
      ∧ (∀ v a fn fm, resolveInfo clean dl o info = .merge v a fn fm →
          fn.extension = some "mp4" ∧ fn.youtubeFormat = some "h264") := by
  intro clean dl o info hfmt
  have h0 : format0 o = "h264" := by
    rcases hfmt with h | h <;> simp [format0, h]
  have hpair : resolvedPair o info
      = ("h264", filterByCodec "h264" info.streaming_data.adaptive_formats) := by
    rw [resolvedPair, h0]
    simp [resolveFormats]
  have hfm : theFormat o info = "h264" := by rw [theFormat, hpair]
  have hafs : theAfs o info
      = filterByCodec "h264" info.streaming_data.adaptive_formats := by
    rw [theAfs, hpair]
  refine ⟨hfm, hafs, rfl, ?_, ?_⟩
  · intro u ba fn fm h
    have hb := resolveInfo_plan_eq_buildPlan (by rw [h]; rfl)
    rw [hb.1] at h
    rcases buildPlan_cases clean o info with ⟨c, cr, hbp⟩ | ⟨a, ha, hao, hbp⟩
      | ⟨v', a, hv, ha, hbp⟩
    · rw [hbp] at h
      cases h
    · rw [hbp] at h
      injection h with h1 h2 h3 h4
      rw [← h2, hfm]
      simp
    · rw [hbp] at h
      cases h
  · intro v a fn fm h
    have hb := resolveInfo_plan_eq_buildPlan (by rw [h]; rfl)
    rw [hb.1] at h
    rcases buildPlan_cases clean o info with ⟨c, cr, hbp⟩ | ⟨a', ha, hao, hbp⟩
      | ⟨v', a', hv, ha, hbp⟩
    · rw [hbp] at h
      cases h
    · rw [hbp] at h
      cases h
    · rw [hbp] at h
      injection h with h1 h2 h3 h4
      rw [← h3]
      simp [mergeFn, hfm, codecList]

/-- A formatless request for id `"abc"`. -/
def oC10 : Options := { id := "abc" }

/-- Witness for C10: with no format given, the resolved family is h264 and
filtering is h264 filtering. -/
theorem claim_C10_witness :
    theFormat oC10 infoC4 = "h264"
    ∧ theAfs oC10 infoC4
        = filterByCodec "h264" infoC4.streaming_data.adaptive_formats := by
  have h := claim_C10_theorem (fun s => s) 100 oC10 infoC4 (Or.inl rfl)
  exact ⟨h.1, h.2.1⟩
